import Mathlib

/-!
# Verification of the claude-container session launcher

A shallow embedding of `claude-container.py`: the argument classifier
(an `argparse` parser with three optional flags and `parse_known_args`),
the session resolver, the git-worktree workspace provisioner, the
container lifecycle controller, and the command renderer.  External
effects (subprocess invocations, filesystem existence, the generated
UUID, TTY detection, asynchronous `KeyboardInterrupt` delivery) are
modelled as explicit inputs in an `Env` record; the launcher `main`
becomes a pure function from `Env` to an exit code, a trace of external
calls, and the list of stderr messages.
-/

namespace ClaudeContainer

/-- The exact token filtered out of forwarded arguments
(`--dangerously-skip-permissions` in the source). -/
def dspFlag : String := "--dangerously-skip-permissions"

/-- The long option strings registered on the `argparse` parser in
`parse_args` (source lines 56-60): `--resume` and `--session-id` take a
string value, `--dangerously-skip-permissions` is `store_true`. -/
def longOptionNames : List String := ["--resume", "--session-id", dspFlag]

/-- Whether a character is a decimal digit, as Python's regex `\d`. -/
def pyIsDigit (c : Char) : Bool := c.isDigit

/-- `s.startswith(p)`, computed on the character lists (kernel-reducible,
unlike `String.startsWith`). -/
def strStartsWith (s p : String) : Bool := p.toList.isPrefixOf s.toList

/-- `s.endswith(p)`, computed on the character lists. -/
def strEndsWith (s p : String) : Bool := s.toList.reverse.take p.toList.length == p.toList.reverse

/-- `p` is a prefix of `s`, computed on the character lists. -/
def strIsPrefixOf (p s : String) : Bool := p.toList.isPrefixOf s.toList

/-- Python `argparse`'s negative-number matcher `^-\d+$|^-\d*\.\d+$`:
a token matching it (when the parser has no numeric-looking options,
as here) is classified as a positional, not an option. -/
def isNegNumber (t : String) : Bool :=
  match t.toList with
  | '-' :: rest =>
    (decide (rest ≠ []) && rest.all pyIsDigit) ||
    (let intPart := rest.takeWhile (· ≠ '.')
     match rest.dropWhile (· ≠ '.') with
     | '.' :: frac =>
       intPart.all pyIsDigit && decide (frac ≠ []) && frac.all pyIsDigit
     | _ => false)
  | _ => false

/-- Result of `argparse`'s `_parse_optional` classification of a single
token: a positional (`'A'` in the pattern), an unrecognized option-like
token (`'O'`, collected into the extras of `parse_known_args`), a match
of a registered option (exact, unambiguous prefix abbreviation, or
`--opt=value` form, possibly carrying an inline value), or an ambiguous
abbreviation (a parse error). -/
inductive TokClass where
  | positional
  | unknownOpt
  | opt (name : String) (inlineVal : Option String)
  | ambiguous
  deriving DecidableEq, Repr

/-- The part of a token before the first `=`, as Python
`arg_string.split('=', 1)[0]`. -/
def beforeEq (t : String) : String := String.mk (t.toList.takeWhile (· ≠ '='))

/-- The part of a token after the first `=`, as Python
`arg_string.split('=', 1)[1]`. -/
def afterEq (t : String) : String :=
  String.mk ((t.toList.dropWhile (· ≠ '=')).drop 1)

/-- The registered long options that a `--`-prefixed token abbreviates
(`argparse._get_option_tuples`): those option strings having the token
as a prefix. -/
def prefixCandidates (t : String) : List String :=
  longOptionNames.filter (fun n => strIsPrefixOf t n)

/-- `argparse._parse_optional` specialized to this parser: classify one
token.  Mirrors the CPython order of checks: empty or non-dash tokens
and the bare `-` are positionals; an exact match of a registered option
wins; a token containing `=` is split and matched (exactly, then by
prefix) on the part before `=`; otherwise a `--`-prefixed token is
matched by unambiguous prefix; what remains is a positional if it looks
like a negative number or contains a space, else an unknown option-like
token. -/
def classifyToken (t : String) : TokClass :=
  if t = "" then .positional
  else if ¬ strStartsWith t "-" then .positional
  else if longOptionNames.contains t then .opt t none
  else if t.length = 1 then .positional
  else if t.toList.contains '=' then
    let pre := beforeEq t
    let v := afterEq t
    if longOptionNames.contains pre then .opt pre (some v)
    else if strStartsWith pre "--" then
      match prefixCandidates pre with
      | [] => if isNegNumber t || t.toList.contains ' ' then .positional else .unknownOpt
      | [n] => .opt n (some v)
      | _ => .ambiguous
    else if isNegNumber t || t.toList.contains ' ' then .positional else .unknownOpt
  else if strStartsWith t "--" then
    match prefixCandidates t with
    | [] => if isNegNumber t || t.toList.contains ' ' then .positional else .unknownOpt
    | [n] => .opt n none
    | _ => .ambiguous
  else if isNegNumber t || t.toList.contains ' ' then .positional
  else .unknownOpt

/-- The output of `parse_args` (the `argparse.Namespace` plus the
`remaining_args` extras of `parse_known_args`). -/
structure ParsedArgs where
  resume : Option String := none
  session_id : Option String := none
  dangerously_skip_permissions : Bool := false
  remaining : List String := []
  deriving DecidableEq, Repr

/-- The error conditions `argparse` can report for this parser; each
makes `parser.error` print a usage message and `sys.exit(2)`. -/
inductive ParseErr where
  | expectedOneArgument (opt : String)
  | ignoredExplicitArgument (opt : String)
  | ambiguousOption (tok : String)
  deriving DecidableEq, Repr

/-- Store the value of a value-taking option into the namespace
(`store` action: the last occurrence wins). -/
def storeVal (st : ParsedArgs) (n : String) (v : String) : ParsedArgs :=
  if n = "--resume" then { st with resume := some v }
  else { st with session_id := some v }

/-- A token in value position is consumed as an option argument exactly
when `argparse` classifies it as a positional (`'A'`). -/
def isValueToken (v : String) : Bool := classifyToken v = .positional

/-- The scan of `parse_known_args` over the token list, one token at a
time; the second argument holds a value-taking option awaiting its
argument.  Positionals and unknown option-like tokens are collected
into the extras; a registered value-taking option consumes the next
positional token or errors with "expected one argument" (a `--`
separator in value position is not positional, so it also errors, as
observed on CPython 3.11); the `store_true` flag errors if given an
inline `=value`; everything at and after a top-level `--` separator
goes to the extras. -/
def parseArgsLoop : List String → Option String → ParsedArgs → Except ParseErr ParsedArgs
  | [], none, st => .ok st
  | [], some n, _ => .error (.expectedOneArgument n)
  | t :: rest, some n, st =>
    if isValueToken t then parseArgsLoop rest none (storeVal st n t)
    else .error (.expectedOneArgument n)
  | t :: rest, none, st =>
    if t = "--" then
      .ok { st with remaining := st.remaining ++ t :: rest }
    else
      match classifyToken t with
      | .positional => parseArgsLoop rest none { st with remaining := st.remaining ++ [t] }
      | .unknownOpt => parseArgsLoop rest none { st with remaining := st.remaining ++ [t] }
      | .ambiguous => .error (.ambiguousOption t)
      | .opt n inl =>
        if n = dspFlag then
          match inl with
          | some _ => .error (.ignoredExplicitArgument n)
          | none => parseArgsLoop rest none { st with dangerously_skip_permissions := true }
        else
          match inl with
          | some v => parseArgsLoop rest none (storeVal st n v)
          | none => parseArgsLoop rest (some n) st

/-- `parse_args` of the source (lines 54-64): `parse_known_args` on the
argument list with an empty namespace. -/
def parse_known_args (argv : List String) : Except ParseErr ParsedArgs :=
  parseArgsLoop argv none {}

instance : DecidableEq (Except ParseErr ParsedArgs) := fun a b =>
  match a, b with
  | .ok x, .ok y => decidable_of_iff (x = y) (by simp)
  | .error x, .error y => decidable_of_iff (x = y) (by simp)
  | .ok _, .error _ => isFalse (by simp)
  | .error _, .ok _ => isFalse (by simp)

/-- Python truthiness of an optional string (`if args.resume:`):
`None` and the empty string are falsy. -/
def pyTruthy : Option String → Bool
  | none => false
  | some s => s ≠ ""

/-- `get_session_info` (source lines 67-77): pick the `--resume` value
if truthy, else the `--session-id` value if truthy, else the freshly
generated UUID; the boolean says whether `--session-id` must be
appended to the forwarded arguments. -/
def get_session_info (resume session_id : Option String) (fresh : String) :
    String × Bool :=
  if pyTruthy resume then (resume.getD "", false)
  else if pyTruthy session_id then (session_id.getD "", false)
  else (fresh, true)

/-- The container name computed in `main` (line 195):
`f"claude-session-{session_id}"`. -/
def container_name_of (session_id : String) : String :=
  "claude-session-" ++ session_id

/-- Two-argument POSIX `os.path.join`: an absolute second component
replaces the first; otherwise a `/` separates them unless the first
already ends in one (or is empty). -/
def pyJoin (a b : String) : String :=
  if strStartsWith b "/" then b
  else if a = "" ∨ strEndsWith a "/" then a ++ b
  else a ++ "/" ++ b

/-- A recorded `git` invocation (argument vector plus its working
directory, the `cwd=` keyword of `subprocess.run`). -/
structure GitCall where
  args : List String
  cwd : String
  deriving DecidableEq, Repr

/-- Outcome of `create_git_worktree`: the directory it returns, the
`git` commands it ran, and the stderr notifications it printed. -/
structure WorktreeOut where
  dir : String
  gitCalls : List GitCall
  msgs : List String
  deriving DecidableEq, Repr

/-- `create_git_worktree` (source lines 27-51).  The branch name is the
session id; the worktree path is `os.path.join(worktree_base_dir,
branch_name)`.  If that path exists on the filesystem (`fsExists`), it
is returned with no `git` call and no message; otherwise one
`git worktree add -b <branch> <dir>` runs (modelled by `gitOk` for its
exit status, `check=True`): on success a "Created git worktree"
notification is printed, on failure `CalledProcessError` propagates. -/
def create_git_worktree (session_id source_dir worktree_base_dir : String)
    (fsExists : String → Bool) (gitOk : Bool) : Except String WorktreeOut :=
  let branch_name := session_id
  let worktree_dir := pyJoin worktree_base_dir branch_name
  if fsExists worktree_dir then
    .ok ⟨worktree_dir, [], []⟩
  else if gitOk then
    .ok ⟨worktree_dir,
         [⟨["git", "worktree", "add", "-b", branch_name, worktree_dir], source_dir⟩],
         ["Created git worktree: " ++ worktree_dir]⟩
  else
    .error "CalledProcessError: git worktree add"

/-- The existence-check command rendered in `container_exists`
(source line 82). -/
def container_exists_cmd (container_binary container_name : String) : List String :=
  [container_binary, "container", "exists", container_name]

/-- The create command rendered in `create_container` (source lines
94-129): detached run, name, optional quiet flags (absent in debug
mode), isolation flags, the three unconditional mounts, the two
skip-permissions mounts when requested, working directory, image, and
the `sleep infinity` entry command. -/
def create_container_cmd (container_binary container_name base_image
    home_dir work_dir target_dir : String)
    (debug_mode skip_permissions : Bool) : List String :=
  [container_binary, "run", "-d", "--name", container_name]
  ++ (if ¬ debug_mode then ["--quiet", "--log-driver", "none"] else [])
  ++ ["--security-opt", "label=disable",
      "--security-opt", "seccomp=unconfined",
      "--cap-add=all",
      "--privileged",
      "-v", home_dir ++ "/.claude.json:/root/.claude.json:Z",
      "-v", home_dir ++ "/.claude/:/root/.claude/:Z",
      "-v", work_dir ++ ":" ++ target_dir ++ ":Z"]
  ++ (if skip_permissions then
      ["-v", "/root/.claude/settings.json:/root/.claude/settings.json:Z",
       "-v", "/bin/claude-hook-pretooluse.sh:/bin/claude-hook-pretooluse.sh:Z"]
      else [])
  ++ ["-w", target_dir, base_image, "sleep", "infinity"]

/-- The exec command rendered in `execute_in_container` (source lines
151-160): always `-i`, `-t` only when stdin is a terminal, then the
container name, the agent binary, and the forwarded arguments. -/
def exec_cmd (container_binary container_name claude_binary : String)
    (isatty : Bool) (claude_args : List String) : List String :=
  [container_binary, "exec", "-i"]
  ++ (if isatty then ["-t"] else [])
  ++ [container_name, claude_binary] ++ claude_args

/-- The forwarded argument filter of `main` (lines 209-212): keep every
token of `sys.argv[1:]` that is not exactly the
`--dangerously-skip-permissions` string. -/
def filter_claude_args (argv : List String) : List String :=
  argv.filter (fun a => a ≠ dspFlag)

/-- The forwarded argument vector of `main` (lines 209-215): the
filtered original arguments, plus an appended `--session-id <id>` pair
when the session id was freshly generated. -/
def build_claude_args (argv : List String) (session_id : String)
    (add_session_id : Bool) : List String :=
  filter_claude_args argv
  ++ (if add_session_id then ["--session-id", session_id] else [])

/-- The blocking subprocess phases of one invocation, the only
suspension points at which a `KeyboardInterrupt` can be delivered
(spec §5): the `git rev-parse` repository check, the
`git worktree add` creation, the container existence check, the
container create, and the exec. -/
inductive Phase where
  | gitCheck
  | worktree
  | existsCheck
  | create
  | exec
  deriving DecidableEq, Repr

/-- One recorded external call of the launcher. -/
inductive Call where
  | git_rev_parse (cwd : String)
  | git_worktree_add (c : GitCall)
  | container_exists_check (cmd : List String)
  | container_create (cmd : List String)
  | container_exec (cmd : List String)
  deriving DecidableEq, Repr

/-- The environment of one invocation: the argument list, configuration,
and the behavior of every external effect.  `intr` is the phase during
whose blocking call a `KeyboardInterrupt` is delivered (if that call
runs), `none` for an uninterrupted run. -/
structure Env where
  argv : List String
  fresh : String
  current_dir : String
  home_dir : String
  git_worktrees_dir : String
  base_image : String
  claude_binary : String
  container_binary : String
  debug_mode : Bool
  is_git_repo : Bool
  fsExists : String → Bool
  git_worktree_ok : Bool
  container_exists : Bool
  create_ok : Bool
  create_err : String
  create_stderr : String
  exec_returncode : Nat
  stdin_isatty : Bool
  intr : Option Phase

/-- The observable outcome of one invocation: the process exit code,
the external calls issued in order, and the stderr lines printed. -/
structure MainResult where
  exit_code : Nat
  calls : List Call
  stderr : List String
  deriving DecidableEq, Repr

/-- The message both `KeyboardInterrupt` handlers print. -/
def interruptMsg : String := "Interrupted by user"

/-- The warning printed when skip-permissions is enabled (line 201). -/
def warnMsg : String :=
  "WARNING: Dangerously skip permissions is enabled. This will auto-approve all permission requests."

/-- The exec tail of `main` (lines 228-230 with `execute_in_container`,
lines 144-172): the exec command is rendered and run; a
`KeyboardInterrupt` during it is caught inside `execute_in_container`
(which prints the interrupt message and returns 130) — but `main`
discards the returned code and calls `sys.exit(0)` unconditionally, so
the exit code is 0 either way. -/
def mainExec (env : Env) (container_name : String) (claude_args : List String)
    (calls : List Call) (msgs : List String) : MainResult :=
  let ecmd := exec_cmd env.container_binary container_name env.claude_binary
      env.stdin_isatty claude_args
  let msgs' := msgs ++ ["Executing in container: " ++ String.intercalate " " ecmd]
  if env.intr = some Phase.exec then
    ⟨0, calls ++ [Call.container_exec ecmd], msgs' ++ [interruptMsg]⟩
  else
    ⟨0, calls ++ [Call.container_exec ecmd], msgs'⟩

/-- The container-lifecycle tail of `main` (lines 221-230): print the
session banner, run the existence check, create the container when the
check fails (aborting with exit 1 and the "Failed to create container"
diagnostics if creation fails), then exec.  A `KeyboardInterrupt`
during the check or the create propagates to `main`'s handler
(exit 130). -/
def mainLifecycle (env : Env) (session_id : String) (add_session_id : Bool)
    (container_name : String) (skip_permissions : Bool) (work_dir : String)
    (calls : List Call) (msgs : List String) : MainResult :=
  let claude_args := build_claude_args env.argv session_id add_session_id
  let msgs1 := msgs ++
    ["Using session ID: " ++ session_id,
     "Container name: " ++ container_name,
     "Add session-id to args: " ++ (if add_session_id then "True" else "False")]
  let checkCmd := container_exists_cmd env.container_binary container_name
  let msgs2 := msgs1 ++ ["Checking if container exists: " ++ String.intercalate " " checkCmd]
  let calls2 := calls ++ [Call.container_exists_check checkCmd]
  if env.intr = some Phase.existsCheck then
    ⟨130, calls2, msgs2 ++ [interruptMsg]⟩
  else if env.container_exists then
    mainExec env container_name claude_args calls2
      (msgs2 ++ ["Container " ++ container_name ++ " already exists, reusing it"])
  else
    let ccmd := create_container_cmd env.container_binary container_name
        env.base_image env.home_dir work_dir env.current_dir
        env.debug_mode skip_permissions
    let msgs3 := msgs2 ++ ["Running command: " ++ String.intercalate " " ccmd]
    let calls3 := calls2 ++ [Call.container_create ccmd]
    if env.intr = some Phase.create then
      ⟨130, calls3, msgs3 ++ [interruptMsg]⟩
    else if env.create_ok then
      mainExec env container_name claude_args calls3
        (msgs3 ++ ["Container created successfully: " ++ container_name,
                   "Container " ++ container_name ++ " already exists, reusing it"])
    else
      ⟨1, calls3,
       msgs3 ++ ["Failed to create container: " ++ env.create_err,
                 "Container creation stderr: " ++ env.create_stderr,
                 "Unexpected error: " ++ env.create_err,
                 "Traceback (most recent call last):"]⟩

/-- The workspace step of `main` (lines 204-206): in a git repository
the work directory is the (possibly pre-existing) session worktree; a
`KeyboardInterrupt` during `git worktree add` propagates to `main`'s
handler, and a `git` failure aborts with exit 1 via the generic
exception handler. -/
def mainWorkspace (env : Env) (session_id : String) (add_session_id : Bool)
    (container_name : String) (skip_permissions : Bool)
    (calls : List Call) (msgs : List String) : MainResult :=
  if env.is_git_repo then
    let wdir := pyJoin env.git_worktrees_dir session_id
    if env.fsExists wdir then
      mainLifecycle env session_id add_session_id container_name skip_permissions
        wdir calls msgs
    else if env.intr = some Phase.worktree then
      ⟨130, calls, msgs ++ [interruptMsg]⟩
    else
      match create_git_worktree session_id env.current_dir env.git_worktrees_dir
          env.fsExists env.git_worktree_ok with
      | .ok out =>
        mainLifecycle env session_id add_session_id container_name skip_permissions
          out.dir (calls ++ out.gitCalls.map Call.git_worktree_add) (msgs ++ out.msgs)
      | .error e =>
        ⟨1,
         calls ++ [Call.git_worktree_add
           ⟨["git", "worktree", "add", "-b", session_id, wdir], env.current_dir⟩],
         msgs ++ ["Unexpected error: " ++ e, "Traceback (most recent call last):"]⟩
  else
    mainLifecycle env session_id add_session_id container_name skip_permissions
      env.current_dir calls msgs

/-- `main` (source lines 175-238) as a pure function of the
environment.  An `argparse` error is a `SystemExit(2)` that the
`try/except` does not intercept; a `KeyboardInterrupt` reaching `main`
exits 130; any other exception exits 1. -/
def claudeMain (env : Env) : MainResult :=
  match parse_known_args env.argv with
  | .error _ => ⟨2, [], ["usage: claude-container"]⟩
  | .ok parsed =>
    let si := get_session_info parsed.resume parsed.session_id env.fresh
    let session_id := si.1
    let add_session_id := si.2
    let container_name := container_name_of session_id
    let skip_permissions := parsed.dangerously_skip_permissions
    let msgs0 : List String := if skip_permissions then [warnMsg] else []
    if env.intr = some Phase.gitCheck then
      ⟨130, [], msgs0 ++ [interruptMsg]⟩
    else
      mainWorkspace env session_id add_session_id container_name skip_permissions
        [Call.git_rev_parse env.current_dir] msgs0

/-- Recognize an exec call in a trace. -/
def isExecCall : Call → Bool
  | .container_exec _ => true
  | _ => false

/-- Recognize a container-create call in a trace. -/
def isCreateCall : Call → Bool
  | .container_create _ => true
  | _ => false

/-- Recognize a `git worktree add` call in a trace. -/
def isWorktreeCall : Call → Bool
  | .git_worktree_add _ => true
  | _ => false

/-- Whether a character is a lowercase hexadecimal digit, the alphabet
of `str(uuid.uuid4())`. -/
def isLowerHex (c : Char) : Bool := c.isDigit || ('a' ≤ c && c ≤ 'f')

/-- The shape of `str(uuid.uuid4())` (source line 77): 36 characters,
dashes at indices 8, 13, 18 and 23, lowercase hex elsewhere, version
nibble `4` at index 14 and variant nibble in `8..b` at index 19. -/
def isUuid4Str (s : String) : Bool :=
  decide (s.length = 36) &&
  (s.toList.enum.all fun ic =>
    if ic.1 = 8 ∨ ic.1 = 13 ∨ ic.1 = 18 ∨ ic.1 = 23 then ic.2 == '-'
    else isLowerHex ic.2) &&
  (s.toList.getD 14 ' ' == '4') &&
  (s.toList.getD 19 ' ' == '8' || s.toList.getD 19 ' ' == '9' ||
   s.toList.getD 19 ' ' == 'a' || s.toList.getD 19 ' ' == 'b')

/-- A UUID string has 36 characters. -/
theorem isUuid4Str_length {s : String} (h : isUuid4Str s = true) : s.length = 36 := by
  unfold isUuid4Str at h
  simp only [Bool.and_eq_true, decide_eq_true_eq] at h
  exact h.1.1.1

/-- A UUID string is never the skip-permissions token (their lengths
differ: 36 versus 30). -/
theorem isUuid4Str_ne_dspFlag {s : String} (h : isUuid4Str s = true) : s ≠ dspFlag := by
  intro he
  have h36 := isUuid4Str_length h
  rw [he] at h36
  exact absurd h36 (by decide)

/-- A sample environment used to instantiate the theorems at concrete
inputs: a non-git invocation whose container does not yet exist, with
the runtime succeeding everywhere. -/
def sampleEnv : Env where
  argv := ["--print", "hello"]
  fresh := "123e4567-e89b-42d3-a456-426614174000"
  current_dir := "/work/proj"
  home_dir := "/home/u"
  git_worktrees_dir := "/git-worktrees/"
  base_image := "docker.io/nuhotetotniksvoboden/claudecodeui:latest"
  claude_binary := "claude"
  container_binary := "podman"
  debug_mode := false
  is_git_repo := false
  fsExists := fun _ => false
  git_worktree_ok := true
  container_exists := false
  create_ok := true
  create_err := "Command returned non-zero exit status 1."
  create_stderr := "container create failed"
  exec_returncode := 0
  stdin_isatty := true
  intr := none

/-- Claim C1: the claim says the launcher's exit code equals the exec child's
exit code for every possible child exit code.  The code violates this:
`execute_in_container` returns `result.returncode` (here 42), but
`main` discards the returned value and calls `sys.exit(0)`
unconditionally (source lines 229-230), so the launcher exits 0 while
the child exited 42 — contradicting the repository's own
`test_exit_code_propagation`, which asserts exit code 42 for this very
scenario. -/
theorem C1_exit_code_discarded :
    (claudeMain { sampleEnv with container_exists := true, exec_returncode := 42 }).exit_code = 0
    ∧ ({ sampleEnv with container_exists := true, exec_returncode := 42 } : Env).exec_returncode = 42
    ∧ ((claudeMain { sampleEnv with container_exists := true, exec_returncode := 42 }).calls.countP isExecCall) = 1
    ∧ (0 : Nat) ≠ 42 := by
  refine ⟨rfl, rfl, by decide, by decide⟩

/-- Claim C2: the claim says a `KeyboardInterrupt` during any blocking phase
(existence check, worktree creation, container creation, exec) exits
130 and never 0.  The code honors this in the first three phases, where
the interrupt propagates to `main`'s handler, but during the exec phase
`execute_in_container` catches the interrupt and returns 130, and
`main` discards that value and calls `sys.exit(0)` — so an interrupt
during exec exits 0. -/
theorem C2_interrupt_exit_codes :
    (claudeMain { sampleEnv with intr := some Phase.exec }).exit_code = 0
    ∧ interruptMsg ∈ (claudeMain { sampleEnv with intr := some Phase.exec }).stderr
    ∧ (claudeMain { sampleEnv with intr := some Phase.existsCheck }).exit_code = 130
    ∧ (claudeMain { sampleEnv with intr := some Phase.create }).exit_code = 130
    ∧ (claudeMain { sampleEnv with is_git_repo := true, intr := some Phase.worktree }).exit_code = 130
    ∧ (130 : Nat) ≠ 0 := by
  refine ⟨rfl, by decide, rfl, rfl, rfl, by decide⟩

/-- Claim C3 (counterexample): with the argument list `["--resume", ""]` a
resume value is present (the empty string), yet — because
`get_session_info` tests Python truthiness (`if args.resume:`), under
which the empty string is falsy — the session id is NOT that value: a
fresh token is generated and a `--session-id` pair IS appended,
refuting the claim as stated. -/
theorem C3_counterexample :
    parse_known_args ["--resume", ""] =
      .ok { resume := some "", session_id := none,
            dangerously_skip_permissions := false, remaining := [] }
    ∧ get_session_info (some "") none "f47ac10b-58cc-4372-a567-0e02b2c3d479" =
        ("f47ac10b-58cc-4372-a567-0e02b2c3d479", true)
    ∧ "f47ac10b-58cc-4372-a567-0e02b2c3d479" ≠ ""
    ∧ build_claude_args ["--resume", ""] "f47ac10b-58cc-4372-a567-0e02b2c3d479" true
        = ["--resume", "", "--session-id", "f47ac10b-58cc-4372-a567-0e02b2c3d479"] := by
  refine ⟨by decide, by decide, by decide, by decide⟩

/-- Claim C3 (amended): for every argument list that parses, exactly one
session-resolution branch fires, deciding by Python truthiness: a
NON-EMPTY resume value gives that session id with no injection; else a
NON-EMPTY explicit session-id value gives that session id with no
injection; else the fresh token becomes the session id and exactly one
`--session-id <token>` pair is appended to the filtered forwarded
arguments; in all cases the container name is the literal concatenation
of the fixed prefix `claude-session-` and the session id. -/
theorem C3_session_resolution (argv : List String) (parsed : ParsedArgs)
    (fresh : String) (_hp : parse_known_args argv = .ok parsed) :
    ((if pyTruthy parsed.resume then 1 else 0)
      + (if ¬ pyTruthy parsed.resume ∧ pyTruthy parsed.session_id then 1 else 0)
      + (if ¬ pyTruthy parsed.resume ∧ ¬ pyTruthy parsed.session_id then 1 else 0)
      = 1)
    ∧ (∀ s, parsed.resume = some s → s ≠ "" →
        get_session_info parsed.resume parsed.session_id fresh = (s, false))
    ∧ (∀ t, pyTruthy parsed.resume = false → parsed.session_id = some t → t ≠ "" →
        get_session_info parsed.resume parsed.session_id fresh = (t, false))
    ∧ (pyTruthy parsed.resume = false → pyTruthy parsed.session_id = false →
        get_session_info parsed.resume parsed.session_id fresh = (fresh, true)
        ∧ build_claude_args argv fresh true
            = filter_claude_args argv ++ ["--session-id", fresh])
    ∧ container_name_of (get_session_info parsed.resume parsed.session_id fresh).1
        = "claude-session-" ++ (get_session_info parsed.resume parsed.session_id fresh).1 := by
  refine ⟨?_, ?_, ?_, ?_, rfl⟩
  · by_cases h1 : pyTruthy parsed.resume <;> by_cases h2 : pyTruthy parsed.session_id <;>
      simp [h1, h2]
  · intro s hs hne
    unfold get_session_info
    rw [hs]
    simp [pyTruthy, hne]
  · intro t hr hs hne
    unfold get_session_info
    rw [hr, hs]
    simp [pyTruthy, hne]
  · intro hr hs
    refine ⟨?_, rfl⟩
    unfold get_session_info
    rw [hr, hs]
    simp

/-- Claim C3 (witness): the amended theorem instantiated at the concrete
argument list `["--resume", "abc"]`. -/
theorem C3_session_resolution_witness :
    parse_known_args ["--resume", "abc"] =
      .ok { resume := some "abc", session_id := none,
            dangerously_skip_permissions := false, remaining := [] }
    ∧ get_session_info (some "abc") none "F" = ("abc", false) := by
  have h := C3_session_resolution ["--resume", "abc"]
    { resume := some "abc", session_id := none,
      dangerously_skip_permissions := false, remaining := [] } "F" (by decide)
  exact ⟨by decide, h.2.1 "abc" rfl (by decide)⟩

/-- Claim C4: for every argument list, the skip-permission-checks token is
absent from the forwarded argument vector (all of its occurrences are
removed, even when supplied multiple times), while every other original
argument is forwarded unchanged and in its original relative order (the
filtered list is a sublist of the original preserving all non-flag
occurrence counts); the only other tokens of the forwarded vector are
the appended `--session-id <uuid>` pair, and a generated UUID is never
the flag token. -/
theorem C4_skip_flag_filtered (argv : List String) (session_id : String)
    (add_session_id : Bool)
    (huuid : add_session_id = true → isUuid4Str session_id = true) :
    dspFlag ∉ build_claude_args argv session_id add_session_id
    ∧ List.Sublist (filter_claude_args argv) argv
    ∧ (∀ a, a ≠ dspFlag → (filter_claude_args argv).count a = argv.count a)
    ∧ build_claude_args argv session_id add_session_id
        = filter_claude_args argv
          ++ (if add_session_id then ["--session-id", session_id] else []) := by
  refine ⟨?_, List.filter_sublist argv, ?_, rfl⟩
  · intro hmem
    unfold build_claude_args at hmem
    rcases List.mem_append.mp hmem with h | h
    · unfold filter_claude_args at h
      have := List.of_mem_filter h
      simp at this
    · cases add_session_id with
      | false => simp at h
      | true =>
        have hu := huuid rfl
        have hne := isUuid4Str_ne_dspFlag hu
        simp at h
        rcases h with h | h
        · exact absurd h.symm (by decide)
        · exact hne h.symm
  · intro a ha
    unfold filter_claude_args
    rw [List.count_filter]
    simp [ha]

/-- Claim C4 (witness): the filter instantiated on an argument list carrying
the skip flag twice, with a fresh UUID session id appended. -/
theorem C4_skip_flag_filtered_witness :
    dspFlag ∉ build_claude_args [dspFlag, "a", dspFlag, "b"]
      "123e4567-e89b-42d3-a456-426614174000" true
    ∧ List.Sublist (filter_claude_args [dspFlag, "a", dspFlag, "b"]) [dspFlag, "a", dspFlag, "b"]
    ∧ build_claude_args [dspFlag, "a", dspFlag, "b"]
        "123e4567-e89b-42d3-a456-426614174000" true
        = filter_claude_args [dspFlag, "a", dspFlag, "b"]
          ++ ["--session-id", "123e4567-e89b-42d3-a456-426614174000"] := by
  have h := C4_skip_flag_filtered [dspFlag, "a", dspFlag, "b"]
    "123e4567-e89b-42d3-a456-426614174000" true (fun _ => by decide)
  exact ⟨h.1, h.2.1, by decide⟩

/-- Claim C5: worktree provisioning is idempotent.  If the joined path
`<worktree_root>/S` already exists, `create_git_worktree` returns that
path unchanged, runs no `git` command and prints no "Created git
worktree" notification; if it is absent (and `git` succeeds), exactly
one `git worktree add -b S <worktree_root>/S` runs — one worktree
directory bound to one new branch, both named `S` — and the
notification is printed once. -/
theorem C5_worktree_idempotent (S src root : String) (fs : String → Bool)
    (gitOk : Bool) :
    (fs (pyJoin root S) = true →
      create_git_worktree S src root fs gitOk = .ok ⟨pyJoin root S, [], []⟩)
    ∧ (fs (pyJoin root S) = false → gitOk = true →
      create_git_worktree S src root fs gitOk =
        .ok ⟨pyJoin root S,
             [⟨["git", "worktree", "add", "-b", S, pyJoin root S], src⟩],
             ["Created git worktree: " ++ pyJoin root S]⟩) := by
  constructor
  · intro h
    unfold create_git_worktree
    simp [h]
  · intro h hg
    unfold create_git_worktree
    simp [h, hg]

/-- Claim C5 (witness): the provisioner at session id `s1` under root
`/git-worktrees/`, once with the path present (reuse, no `git` call)
and once with it absent (exactly one creation). -/
theorem C5_worktree_idempotent_witness :
    create_git_worktree "s1" "/repo" "/git-worktrees/"
        (fun p => p == pyJoin "/git-worktrees/" "s1") true
      = .ok ⟨pyJoin "/git-worktrees/" "s1", [], []⟩
    ∧ create_git_worktree "s1" "/repo" "/git-worktrees/" (fun _ => false) true
      = .ok ⟨pyJoin "/git-worktrees/" "s1",
             [⟨["git", "worktree", "add", "-b", "s1", pyJoin "/git-worktrees/" "s1"], "/repo"⟩],
             ["Created git worktree: " ++ pyJoin "/git-worktrees/" "s1"]⟩ :=
  ⟨(C5_worktree_idempotent "s1" "/repo" "/git-worktrees/"
      (fun p => p == pyJoin "/git-worktrees/" "s1") true).1 (by decide),
   (C5_worktree_idempotent "s1" "/repo" "/git-worktrees/"
      (fun _ => false) true).2 rfl rfl⟩

/-- Claim C10: worktree reuse is decided solely by filesystem-path existence:
whenever anything exists at the joined path `<worktree_root>/S`, the
provisioner returns that path as the workspace with zero `git`
invocations — regardless of the `git` behavior (`gitOk` and `gitOk'`)
and of the rest of the filesystem, i.e. with no validation of the
path's contents — and the create command mounts exactly that path onto
the invocation directory inside the container. -/
theorem C10_reuse_by_path_existence_only (S src root : String)
    (fs fs' : String → Bool) (gitOk gitOk' : Bool)
    (h : fs (pyJoin root S) = true) (h' : fs' (pyJoin root S) = true) :
    create_git_worktree S src root fs gitOk = .ok ⟨pyJoin root S, [], []⟩
    ∧ create_git_worktree S src root fs gitOk
        = create_git_worktree S src root fs' gitOk'
    ∧ (∀ cb cn bi hd target dm sp,
        (pyJoin root S ++ ":" ++ target ++ ":Z")
          ∈ create_container_cmd cb cn bi hd (pyJoin root S) target dm sp) := by
  refine ⟨?_, ?_, ?_⟩
  · unfold create_git_worktree
    simp [h]
  · unfold create_git_worktree
    simp [h, h']
  · intro cb cn bi hd target dm sp
    unfold create_container_cmd
    simp

/-- Claim C10 (witness): a pre-existing path (a plain file created by
something else entirely) is reused verbatim irrespective of `git`'s
would-be behavior, and the mount string lands in the create command. -/
theorem C10_reuse_by_path_existence_only_witness :
    create_git_worktree "s1" "/repo" "/git-worktrees/"
        (fun p => p == pyJoin "/git-worktrees/" "s1") false
      = .ok ⟨pyJoin "/git-worktrees/" "s1", [], []⟩
    ∧ (pyJoin "/git-worktrees/" "s1" ++ ":" ++ "/repo" ++ ":Z")
        ∈ create_container_cmd "podman" "claude-session-s1" "img" "/home/u"
            (pyJoin "/git-worktrees/" "s1") "/repo" false false := by
  have h := C10_reuse_by_path_existence_only "s1" "/repo" "/git-worktrees/"
    (fun p => p == pyJoin "/git-worktrees/" "s1")
    (fun p => p == pyJoin "/git-worktrees/" "s1") false true
    (by decide) (by decide)
  exact ⟨h.1, h.2.2 "podman" "claude-session-s1" "img" "/home/u" "/repo" false false⟩

/-- The lifecycle tail when the existence check fails and creation
fails: exit code 1, the container-creation diagnostic on stderr, and no
exec call beyond those already in the accumulated trace. -/
theorem mainLifecycle_create_fail (env : Env) (sid : String) (add : Bool)
    (cname : String) (skip : Bool) (wd : String) (calls : List Call)
    (msgs : List String) (hi : env.intr = none)
    (hce : env.container_exists = false) (hco : env.create_ok = false) :
    (mainLifecycle env sid add cname skip wd calls msgs).exit_code = 1
    ∧ ("Failed to create container: " ++ env.create_err)
        ∈ (mainLifecycle env sid add cname skip wd calls msgs).stderr
    ∧ (mainLifecycle env sid add cname skip wd calls msgs).calls
        = calls ++ [Call.container_exists_check
            (container_exists_cmd env.container_binary cname),
          Call.container_create (create_container_cmd env.container_binary cname
            env.base_image env.home_dir wd env.current_dir env.debug_mode skip)] := by
  unfold mainLifecycle
  simp [hi, hce, hco]

/-- Claim C6: whenever the container-create subprocess exits non-zero, the
launcher aborts with exit code 1 (non-zero), prints the
"Failed to create container" diagnostic, and never issues the exec
call.  The hypotheses state that the invocation parses, is not
interrupted, finds no existing container, has a failing create, and
does not already die in the worktree phase. -/
theorem C6_create_failure_aborts (env : Env) (parsed : ParsedArgs)
    (hp : parse_known_args env.argv = .ok parsed)
    (hi : env.intr = none)
    (hce : env.container_exists = false)
    (hco : env.create_ok = false)
    (hwt : env.is_git_repo = true →
      env.fsExists (pyJoin env.git_worktrees_dir
        (get_session_info parsed.resume parsed.session_id env.fresh).1) = false →
      env.git_worktree_ok = true) :
    (claudeMain env).exit_code = 1
    ∧ ("Failed to create container: " ++ env.create_err) ∈ (claudeMain env).stderr
    ∧ (claudeMain env).calls.countP isExecCall = 0 := by
  unfold claudeMain
  rw [hp]
  have hng : (env.intr = some Phase.gitCheck) = False := by simp [hi]
  have hnw : (env.intr = some Phase.worktree) = False := by simp [hi]
  simp only [hng, if_false]
  unfold mainWorkspace
  cases hgit : env.is_git_repo with
  | false =>
    simp only [Bool.false_eq_true, if_false, reduceIte]
    refine ⟨(mainLifecycle_create_fail env _ _ _ _ _ _ _ hi hce hco).1,
            (mainLifecycle_create_fail env _ _ _ _ _ _ _ hi hce hco).2.1, ?_⟩
    rw [(mainLifecycle_create_fail env _ _ _ _ _ _ _ hi hce hco).2.2]
    simp [isExecCall, List.countP_cons, List.countP_append]
  | true =>
    simp only [reduceIte]
    cases hfs : env.fsExists (pyJoin env.git_worktrees_dir
        (get_session_info parsed.resume parsed.session_id env.fresh).1) with
    | true =>
      simp only [reduceIte]
      refine ⟨(mainLifecycle_create_fail env _ _ _ _ _ _ _ hi hce hco).1,
              (mainLifecycle_create_fail env _ _ _ _ _ _ _ hi hce hco).2.1, ?_⟩
      rw [(mainLifecycle_create_fail env _ _ _ _ _ _ _ hi hce hco).2.2]
      simp [isExecCall, List.countP_cons, List.countP_append]
    | false =>
      have hgw := hwt hgit hfs
      simp only [hnw, if_false]
      unfold create_git_worktree
      simp only [hfs, hgw, Bool.false_eq_true, if_false, reduceIte]
      refine ⟨(mainLifecycle_create_fail env _ _ _ _ _ _ _ hi hce hco).1,
              (mainLifecycle_create_fail env _ _ _ _ _ _ _ hi hce hco).2.1, ?_⟩
      rw [(mainLifecycle_create_fail env _ _ _ _ _ _ _ hi hce hco).2.2]
      simp [isExecCall, List.countP_cons, List.countP_append]

/-- Claim C6 (witness): the theorem at a concrete environment whose runtime
mock exits non-zero on create. -/
theorem C6_create_failure_aborts_witness :
    (claudeMain { sampleEnv with create_ok := false }).exit_code = 1
    ∧ ("Failed to create container: "
        ++ ({ sampleEnv with create_ok := false } : Env).create_err)
        ∈ (claudeMain { sampleEnv with create_ok := false }).stderr
    ∧ (claudeMain { sampleEnv with create_ok := false }).calls.countP isExecCall = 0 :=
  C6_create_failure_aborts { sampleEnv with create_ok := false }
    { resume := none, session_id := none, dangerously_skip_permissions := false,
      remaining := ["--print", "hello"] }
    (by decide) rfl rfl rfl (fun h => absurd h (by decide))

/-- The lifecycle tail under no interrupt: with a passing existence
check no create call happens and the exec call directly follows the
check; with a failing check and a succeeding create, exactly one create
call sits between the check and the exec. -/
theorem mainLifecycle_check_branches (env : Env) (sid : String) (add : Bool)
    (cname : String) (skip : Bool) (wd : String) (calls : List Call)
    (msgs : List String) (hi : env.intr = none) :
    (env.container_exists = true →
      (mainLifecycle env sid add cname skip wd calls msgs).calls
        = calls ++ [Call.container_exists_check
              (container_exists_cmd env.container_binary cname),
            Call.container_exec (exec_cmd env.container_binary cname
              env.claude_binary env.stdin_isatty
              (build_claude_args env.argv sid add))])
    ∧ (env.container_exists = false → env.create_ok = true →
      (mainLifecycle env sid add cname skip wd calls msgs).calls
        = calls ++ [Call.container_exists_check
              (container_exists_cmd env.container_binary cname),
            Call.container_create (create_container_cmd env.container_binary cname
              env.base_image env.home_dir wd env.current_dir env.debug_mode skip),
            Call.container_exec (exec_cmd env.container_binary cname
              env.claude_binary env.stdin_isatty
              (build_claude_args env.argv sid add))]) := by
  constructor
  · intro hce
    unfold mainLifecycle mainExec
    simp [hi, hce]
  · intro hce hco
    unfold mainLifecycle mainExec
    simp [hi, hce, hco]

/-- Claim C7: if the runtime existence check exits 0 the launcher performs
zero create calls and proceeds directly to exec (the exec call
immediately follows the check in the trace); if it exits non-zero the
container is treated as absent — not fatal by itself — and exactly one
create call sits between the check and the exec. -/
theorem C7_exists_check_gates_create (env : Env) (parsed : ParsedArgs)
    (hp : parse_known_args env.argv = .ok parsed)
    (hi : env.intr = none)
    (hwt : env.is_git_repo = true →
      env.fsExists (pyJoin env.git_worktrees_dir
        (get_session_info parsed.resume parsed.session_id env.fresh).1) = false →
      env.git_worktree_ok = true) :
    (env.container_exists = true →
      (claudeMain env).calls.countP isCreateCall = 0
      ∧ (claudeMain env).calls.countP isExecCall = 1
      ∧ ∃ pre c e, (claudeMain env).calls
          = pre ++ [Call.container_exists_check c, Call.container_exec e])
    ∧ (env.container_exists = false → env.create_ok = true →
      (claudeMain env).calls.countP isCreateCall = 1
      ∧ (claudeMain env).calls.countP isExecCall = 1
      ∧ ∃ pre c cc e, (claudeMain env).calls
          = pre ++ [Call.container_exists_check c, Call.container_create cc,
                    Call.container_exec e]) := by
  unfold claudeMain
  rw [hp]
  have hng : (env.intr = some Phase.gitCheck) = False := by simp [hi]
  have hnw : (env.intr = some Phase.worktree) = False := by simp [hi]
  simp only [hng, if_false]
  unfold mainWorkspace
  cases hgit : env.is_git_repo with
  | false =>
    simp only [Bool.false_eq_true, if_false, reduceIte]
    constructor
    · intro hce
      rw [(mainLifecycle_check_branches env _ _ _ _ _ _ _ hi).1 hce]
      refine ⟨?_, ?_, ⟨_, _, _, rfl⟩⟩ <;>
        simp [isCreateCall, isExecCall, List.countP_cons, List.countP_append]
    · intro hce hco
      rw [(mainLifecycle_check_branches env _ _ _ _ _ _ _ hi).2 hce hco]
      refine ⟨?_, ?_, ⟨_, _, _, _, rfl⟩⟩ <;>
        simp [isCreateCall, isExecCall, List.countP_cons, List.countP_append]
  | true =>
    simp only [reduceIte]
    cases hfs : env.fsExists (pyJoin env.git_worktrees_dir
        (get_session_info parsed.resume parsed.session_id env.fresh).1) with
    | true =>
      simp only [reduceIte]
      constructor
      · intro hce
        rw [(mainLifecycle_check_branches env _ _ _ _ _ _ _ hi).1 hce]
        refine ⟨?_, ?_, ⟨_, _, _, rfl⟩⟩ <;>
          simp [isCreateCall, isExecCall, List.countP_cons, List.countP_append]
      · intro hce hco
        rw [(mainLifecycle_check_branches env _ _ _ _ _ _ _ hi).2 hce hco]
        refine ⟨?_, ?_, ⟨_, _, _, _, rfl⟩⟩ <;>
          simp [isCreateCall, isExecCall, List.countP_cons, List.countP_append]
    | false =>
      have hgw := hwt hgit hfs
      simp only [hnw, if_false]
      unfold create_git_worktree
      simp only [hfs, hgw, Bool.false_eq_true, if_false, reduceIte]
      constructor
      · intro hce
        rw [(mainLifecycle_check_branches env _ _ _ _ _ _ _ hi).1 hce]
        refine ⟨?_, ?_, ⟨_, _, _, rfl⟩⟩ <;>
          simp [isCreateCall, isExecCall, List.countP_cons, List.countP_append]
      · intro hce hco
        rw [(mainLifecycle_check_branches env _ _ _ _ _ _ _ hi).2 hce hco]
        refine ⟨?_, ?_, ⟨_, _, _, _, rfl⟩⟩ <;>
          simp [isCreateCall, isExecCall, List.countP_cons, List.countP_append]

/-- Claim C7 (witness): the theorem at concrete environments — one whose
existence check succeeds (no create call, direct exec) and one whose
check fails with a succeeding create (exactly one create before the
exec). -/
theorem C7_exists_check_gates_create_witness :
    ((claudeMain { sampleEnv with container_exists := true }).calls.countP isCreateCall = 0
      ∧ (claudeMain { sampleEnv with container_exists := true }).calls.countP isExecCall = 1)
    ∧ ((claudeMain sampleEnv).calls.countP isCreateCall = 1
      ∧ (claudeMain sampleEnv).calls.countP isExecCall = 1) := by
  have h1 := (C7_exists_check_gates_create { sampleEnv with container_exists := true }
    { resume := none, session_id := none, dangerously_skip_permissions := false,
      remaining := ["--print", "hello"] }
    (by decide) rfl (fun h => absurd h (by decide))).1 rfl
  have h2 := (C7_exists_check_gates_create sampleEnv
    { resume := none, session_id := none, dangerously_skip_permissions := false,
      remaining := ["--print", "hello"] }
    (by decide) rfl (fun h => absurd h (by decide))).2 rfl rfl
  exact ⟨⟨h1.1, h1.2.1⟩, ⟨h2.1, h2.2.1⟩⟩

/-- A token the classifier treats as pure pass-through: neither a
spelling of a recognized control flag (nor an ambiguous abbreviation)
nor the `--` separator. -/
def tokenPassive (t : String) : Bool :=
  (classifyToken t == .positional || classifyToken t == .unknownOpt) && t != "--"

/-- A token that matches a registered control flag (in any accepted
spelling) or is an ambiguous abbreviation of one. -/
def recognizedTok (t : String) : Bool :=
  match classifyToken t with
  | .opt _ _ => true
  | .ambiguous => true
  | _ => false

/-- A list of pass-through tokens parses without error and lands
verbatim in the extras. -/
theorem parseArgsLoop_passive (l : List String) :
    ∀ st, (∀ t ∈ l, tokenPassive t = true) →
      parseArgsLoop l none st = .ok { st with remaining := st.remaining ++ l } := by
  induction l with
  | nil =>
    intro st _
    simp [parseArgsLoop]
  | cons t rest ih =>
    intro st h
    have ht := h t (List.mem_cons_self t rest)
    have hrest : ∀ x ∈ rest, tokenPassive x = true :=
      fun x hx => h x (List.mem_cons_of_mem t hx)
    have htd : ¬ t = "--" := by
      simp [tokenPassive] at ht
      exact ht.2
    unfold parseArgsLoop
    rw [if_neg htd]
    cases hc : classifyToken t with
    | positional =>
      rw [ih _ hrest]
      simp
    | unknownOpt =>
      rw [ih _ hrest]
      simp
    | opt n inl =>
      simp [tokenPassive, hc] at ht
    | ambiguous =>
      simp [tokenPassive, hc] at ht

/-- A parse error always originates from a token matching (or
ambiguously abbreviating) a registered control flag. -/
theorem parseArgsLoop_error_char (l : List String) :
    ∀ st e, parseArgsLoop l none st = .error e →
      ∃ t ∈ l, recognizedTok t = true := by
  induction l with
  | nil =>
    intro st e h
    simp [parseArgsLoop] at h
  | cons t rest ih =>
    intro st e h
    by_cases htd : t = "--"
    · unfold parseArgsLoop at h
      rw [if_pos htd] at h
      simp at h
    · unfold parseArgsLoop at h
      rw [if_neg htd] at h
      cases hc : classifyToken t with
      | positional =>
        rw [hc] at h
        obtain ⟨x, hx, hrx⟩ := ih _ _ h
        exact ⟨x, List.mem_cons_of_mem t hx, hrx⟩
      | unknownOpt =>
        rw [hc] at h
        obtain ⟨x, hx, hrx⟩ := ih _ _ h
        exact ⟨x, List.mem_cons_of_mem t hx, hrx⟩
      | ambiguous =>
        exact ⟨t, List.mem_cons_self t rest, by simp [recognizedTok, hc]⟩
      | opt n inl =>
        exact ⟨t, List.mem_cons_self t rest, by simp [recognizedTok, hc]⟩

/-- Claim C8 (counterexample): the claim says parsing completes without error
for every argument list, but the recognized value-taking flag
`--resume` given without a value makes `argparse` report "expected one
argument" and `sys.exit(2)` — a `SystemExit` the launcher's
`try/except` does not intercept, so the process exits 2. -/
theorem C8_counterexample :
    parse_known_args ["--resume"] = .error (.expectedOneArgument "--resume")
    ∧ (claudeMain { sampleEnv with argv := ["--resume"] }).exit_code = 2 :=
  ⟨by decide, rfl⟩

/-- Claim C8 (amended): the classifier never errors on unrecognized
arguments — any list of tokens none of which spells (or ambiguously
abbreviates) a recognized control flag parses successfully and is
passed through untouched — and, conversely, every parse error
originates from a token matching a recognized control flag (a
value-taking flag missing its value, a `store_true` flag given an
inline value, or an ambiguous abbreviation). -/
theorem C8_unknown_args_tolerated :
    (∀ argv : List String, (∀ t ∈ argv, tokenPassive t = true) →
      parse_known_args argv = .ok { resume := none, session_id := none,
                                    dangerously_skip_permissions := false,
                                    remaining := argv })
    ∧ (∀ argv : List String, ∀ e, parse_known_args argv = .error e →
      ∃ t ∈ argv, recognizedTok t = true) := by
  constructor
  · intro argv h
    have hx := parseArgsLoop_passive argv {} h
    simpa [parse_known_args] using hx
  · intro argv e h
    exact parseArgsLoop_error_char argv {} e h

/-- Claim C8 (witness): unknown flags (`--foo`, `bar`, `-x`) pass through
untouched without error, and the sole error-witnessing token of
`["--resume"]` is the recognized `--resume` flag itself. -/
theorem C8_unknown_args_tolerated_witness :
    parse_known_args ["--foo", "bar", "-x"] =
      .ok { resume := none, session_id := none,
            dangerously_skip_permissions := false,
            remaining := ["--foo", "bar", "-x"] }
    ∧ ∃ t ∈ ["--resume"], recognizedTok t = true :=
  ⟨C8_unknown_args_tolerated.1 ["--foo", "bar", "-x"] (by decide),
   C8_unknown_args_tolerated.2 ["--resume"] (.expectedOneArgument "--resume") (by decide)⟩

/-- The `argparse`-accepted abbreviated spellings of the
skip-permissions flag: its proper prefixes longer than the bare `--`
(each unambiguous for this option set). -/
def dspSpellings : List String :=
  (List.range 27).map (fun k => String.mk (dspFlag.toList.take (k + 3)))

/-- Claim C9: the forwarded-argument filter removes only the exact
`--dangerously-skip-permissions` token, while `argparse` also accepts
every unambiguous prefix abbreviation: each abbreviated spelling sets
the skip flag (so the policy-override file and pre-execution hook are
mounted into the container) yet survives the filter and remains in the
argument vector forwarded to the wrapped agent. -/
theorem C9_abbreviated_skip_flag (t : String) (ht : t ∈ dspSpellings) :
    (parse_known_args [t] = .ok { resume := none, session_id := none,
                                  dangerously_skip_permissions := true,
                                  remaining := [] }
      ∧ t ∈ filter_claude_args [t])
    ∧ (∀ cb cn bi hd wd td dm,
        "/root/.claude/settings.json:/root/.claude/settings.json:Z"
          ∈ create_container_cmd cb cn bi hd wd td dm true
        ∧ "/bin/claude-hook-pretooluse.sh:/bin/claude-hook-pretooluse.sh:Z"
          ∈ create_container_cmd cb cn bi hd wd td dm true) := by
  constructor
  · revert ht
    revert t
    decide
  · intro cb cn bi hd wd td dm
    constructor <;> simp [create_container_cmd]

/-- Claim C9 (witness): the abbreviation `--dangerously` sets the skip flag,
stays in the forwarded arguments, and the skip mounts land in the
create command. -/
theorem C9_abbreviated_skip_flag_witness :
    (parse_known_args ["--dangerously"]
        = .ok { resume := none, session_id := none,
                dangerously_skip_permissions := true, remaining := [] }
      ∧ "--dangerously" ∈ filter_claude_args ["--dangerously"])
    ∧ ("/root/.claude/settings.json:/root/.claude/settings.json:Z"
        ∈ create_container_cmd "podman" "claude-session-s" "img" "/home/u"
            "/w" "/w" false true
      ∧ "/bin/claude-hook-pretooluse.sh:/bin/claude-hook-pretooluse.sh:Z"
        ∈ create_container_cmd "podman" "claude-session-s" "img" "/home/u"
            "/w" "/w" false true) := by
  have h := C9_abbreviated_skip_flag "--dangerously" (by decide)
  exact ⟨h.1, h.2 "podman" "claude-session-s" "img" "/home/u" "/w" "/w" false⟩

end ClaudeContainer
